import Mathlib

/-!
Verification development for the license generator
(`src/MYP/license_generator.py`).

The Python source is shallowly embedded below: pure helpers become Lean
functions, the stateful `generate_license` flow becomes a pure function over
an explicit environment describing the outcomes of file-system and library
calls, and machine words are `Nat` with explicit `% 2^32` where overflow
matters.  Library primitives that the program calls (SHA-256 and MD5 from
`hashlib`) are implemented concretely so the derivation of license keys is
fully executable.
-/

namespace License

/-! ## SHA-256 (models `hashlib.sha256`) -/

def add32 (x y : Nat) : Nat := (x + y) % 4294967296

def rotr32 (n w : Nat) : Nat := ((w >>> n) ||| (w <<< (32 - n))) % 4294967296

def bigSigma0 (w : Nat) : Nat := rotr32 2 w ^^^ rotr32 13 w ^^^ rotr32 22 w

def bigSigma1 (w : Nat) : Nat := rotr32 6 w ^^^ rotr32 11 w ^^^ rotr32 25 w

def smallSigma0 (w : Nat) : Nat := rotr32 7 w ^^^ rotr32 18 w ^^^ (w >>> 3)

def smallSigma1 (w : Nat) : Nat := rotr32 17 w ^^^ rotr32 19 w ^^^ (w >>> 10)

def ch32 (x y z : Nat) : Nat := (x &&& y) ^^^ ((x ^^^ 4294967295) &&& z)

def maj32 (x y z : Nat) : Nat := (x &&& y) ^^^ (x &&& z) ^^^ (y &&& z)

/-- The eight 32-bit working registers / digest words of SHA-256. -/
structure Hash8 where
  a : Nat
  b : Nat
  c : Nat
  d : Nat
  e : Nat
  f : Nat
  g : Nat
  h : Nat
  deriving Repr, DecidableEq

def sha256Init : Hash8 :=
  ⟨1779033703, 3144134277, 1013904242, 2773480762,
   1359893119, 2600822924, 528734635, 1541459225⟩

def sha256K : List Nat :=
  [1116352408, 1899447441, 3049323471, 3921009573, 961987163, 1508970993, 2453635748, 2870763221,
   3624381080, 310598401, 607225278, 1426881987, 1925078388, 2162078206, 2614888103, 3248222580,
   3835390401, 4022224774, 264347078, 604807628, 770255983, 1249150122, 1555081692, 1996064986,
   2554220882, 2821834349, 2952996808, 3210313671, 3336571891, 3584528711, 113926993, 338241895,
   666307205, 773529912, 1294757372, 1396182291, 1695183700, 1986661051, 2177026350, 2456956037,
   2730485921, 2820302411, 3259730800, 3345764771, 3516065817, 3600352804, 4094571909, 275423344,
   430227734, 506948616, 659060556, 883997877, 958139571, 1322822218, 1537002063, 1747873779,
   1955562222, 2024104815, 2227730452, 2361852424, 2428436474, 2756734187, 3204031479, 3329325298]

def sha256Round (st : Hash8) (kw : Nat × Nat) : Hash8 :=
  let t1 := (st.h + bigSigma1 st.e + ch32 st.e st.f st.g + kw.1 + kw.2) % 4294967296
  let t2 := (bigSigma0 st.a + maj32 st.a st.b st.c) % 4294967296
  ⟨(t1 + t2) % 4294967296, st.a, st.b, st.c, (st.d + t1) % 4294967296, st.e, st.f, st.g⟩

/-- Message-schedule extension: `acc` holds the words produced so far, most
recent first; each step prepends `σ1(w[t-2]) + w[t-7] + σ0(w[t-15]) + w[t-16]`. -/
def scheduleLoop : Nat → List Nat → List Nat
  | 0, acc => acc
  | n + 1, acc =>
      let w := (smallSigma1 (acc.getD 1 0) + acc.getD 6 0 +
                smallSigma0 (acc.getD 14 0) + acc.getD 15 0) % 4294967296
      scheduleLoop n (w :: acc)

def schedule (w16 : List Nat) : List Nat := (scheduleLoop 48 w16.reverse).reverse

def bytesToWordsBE : List Nat → List Nat
  | b0 :: b1 :: b2 :: b3 :: rest =>
      (b0 * 16777216 + b1 * 65536 + b2 * 256 + b3) :: bytesToWordsBE rest
  | _ => []

def compressBlock (h0 : Hash8) (block : List Nat) : Hash8 :=
  let st := (sha256K.zip (schedule (bytesToWordsBE block))).foldl sha256Round h0
  ⟨add32 h0.a st.a, add32 h0.b st.b, add32 h0.c st.c, add32 h0.d st.d,
   add32 h0.e st.e, add32 h0.f st.f, add32 h0.g st.g, add32 h0.h st.h⟩

/-- `k` bytes of `v`, most-significant byte first. -/
def toBytesBE : Nat → Nat → List Nat
  | 0, _ => []
  | k + 1, v => toBytesBE k (v / 256) ++ [v % 256]

/-- Merkle–Damgård padding: a `0x80` byte, zero bytes up to 56 mod 64, then
the bit length as 8 big-endian bytes. -/
def sha256Pad (msg : List Nat) : List Nat :=
  msg ++ 128 :: List.replicate ((119 - msg.length % 64) % 64) 0 ++
    toBytesBE 8 (8 * msg.length)

def chunksOf64 : Nat → List Nat → List (List Nat)
  | 0, _ => []
  | _, [] => []
  | fuel + 1, l => l.take 64 :: chunksOf64 fuel (l.drop 64)

def sha256Bytes (msg : List Nat) : Hash8 :=
  let padded := sha256Pad msg
  (chunksOf64 padded.length padded).foldl compressBlock sha256Init

def hexDigitChar (n : Nat) : Char :=
  if n < 10 then Char.ofNat (48 + n) else Char.ofNat (87 + n)

/-- Exactly `k` lowercase hex digits of `v`, most significant first. -/
def hexChars : Nat → Nat → List Char
  | 0, _ => []
  | k + 1, v => hexChars k (v / 16) ++ [hexDigitChar (v % 16)]

def toHex8 (w : Nat) : String := ⟨hexChars 8 w⟩

def hexDigest (d : Hash8) : String :=
  toHex8 d.a ++ toHex8 d.b ++ toHex8 d.c ++ toHex8 d.d ++
  toHex8 d.e ++ toHex8 d.f ++ toHex8 d.g ++ toHex8 d.h

/-- UTF-8 encoding of one code point (what Python's `str.encode()` emits per
character). -/
def utf8BytesOfChar (c : Char) : List Nat :=
  let v := c.toNat
  if v < 128 then [v]
  else if v < 2048 then [192 + v / 64, 128 + v % 64]
  else if v < 65536 then [224 + v / 4096, 128 + v / 64 % 64, 128 + v % 64]
  else [240 + v / 262144, 128 + v / 4096 % 64, 128 + v / 64 % 64, 128 + v % 64]

/-- `s.encode()`: the UTF-8 bytes of a string. -/
def strBytes (s : String) : List Nat := (s.data.map utf8BytesOfChar).flatten

/-- `hashlib.sha256(s.encode()).hexdigest()`. -/
def sha256Hex (s : String) : String := hexDigest (sha256Bytes (strBytes s))

/-! ## MD5 (models `hashlib.md5`, used for the record's `machine_id`) -/

def rotl32 (n w : Nat) : Nat := ((w <<< n) ||| (w >>> (32 - n))) % 4294967296

/-- The four 32-bit working registers / digest words of MD5. -/
structure Hash4 where
  a : Nat
  b : Nat
  c : Nat
  d : Nat
  deriving Repr, DecidableEq

def md5Init : Hash4 := ⟨1732584193, 4023233417, 2562383102, 271733878⟩

def md5K : List Nat :=
  [3614090360, 3905402710, 606105819, 3250441966, 4118548399, 1200080426, 2821735955, 4249261313,
   1770035416, 2336552879, 4294925233, 2304563134, 1804603682, 4254626195, 2792965006, 1236535329,
   4129170786, 3225465664, 643717713, 3921069994, 3593408605, 38016083, 3634488961, 3889429448,
   568446438, 3275163606, 4107603335, 1163531501, 2850285829, 4243563512, 1735328473, 2368359562,
   4294588738, 2272392833, 1839030562, 4259657740, 2763975236, 1272893353, 4139469664, 3200236656,
   681279174, 3936430074, 3572445317, 76029189, 3654602809, 3873151461, 530742520, 3299628645,
   4096336452, 1126891415, 2878612391, 4237533241, 1700485571, 2399980690, 4293915773, 2240044497,
   1873313359, 4264355552, 2734768916, 1309151649, 4149444226, 3174756917, 718787259, 3951481745]

def md5S : List Nat :=
  [7, 12, 17, 22, 7, 12, 17, 22, 7, 12, 17, 22, 7, 12, 17, 22,
   5, 9, 14, 20, 5, 9, 14, 20, 5, 9, 14, 20, 5, 9, 14, 20,
   4, 11, 16, 23, 4, 11, 16, 23, 4, 11, 16, 23, 4, 11, 16, 23,
   6, 10, 15, 21, 6, 10, 15, 21, 6, 10, 15, 21, 6, 10, 15, 21]

def md5Round (msg : List Nat) (st : Hash4) (i : Nat) : Hash4 :=
  let fv :=
    if i < 16 then (st.b &&& st.c) ||| ((st.b ^^^ 4294967295) &&& st.d)
    else if i < 32 then (st.d &&& st.b) ||| ((st.d ^^^ 4294967295) &&& st.c)
    else if i < 48 then st.b ^^^ st.c ^^^ st.d
    else st.c ^^^ (st.b ||| (st.d ^^^ 4294967295))
  let g :=
    if i < 16 then i
    else if i < 32 then (5 * i + 1) % 16
    else if i < 48 then (3 * i + 5) % 16
    else (7 * i) % 16
  let rot := rotl32 (md5S.getD i 0)
    ((st.a + fv + md5K.getD i 0 + msg.getD g 0) % 4294967296)
  ⟨st.d, add32 st.b rot, st.b, st.c⟩

def bytesToWordsLE : List Nat → List Nat
  | b0 :: b1 :: b2 :: b3 :: rest =>
      (b0 + b1 * 256 + b2 * 65536 + b3 * 16777216) :: bytesToWordsLE rest
  | _ => []

def md5CompressBlock (h0 : Hash4) (block : List Nat) : Hash4 :=
  let st := (List.range 64).foldl (md5Round (bytesToWordsLE block)) h0
  ⟨add32 h0.a st.a, add32 h0.b st.b, add32 h0.c st.c, add32 h0.d st.d⟩

/-- `k` bytes of `v`, least-significant byte first. -/
def toBytesLE : Nat → Nat → List Nat
  | 0, _ => []
  | k + 1, v => v % 256 :: toBytesLE k (v / 256)

def md5Pad (msg : List Nat) : List Nat :=
  msg ++ 128 :: List.replicate ((119 - msg.length % 64) % 64) 0 ++
    toBytesLE 8 (8 * msg.length)

def md5Bytes (msg : List Nat) : Hash4 :=
  let padded := md5Pad msg
  (chunksOf64 padded.length padded).foldl md5CompressBlock md5Init

/-- A 32-bit word as 8 hex digits, least-significant byte first
(MD5's digest byte order). -/
def toHexLE32 (w : Nat) : String :=
  ⟨hexChars 2 (w % 256) ++ hexChars 2 (w / 256 % 256) ++
   hexChars 2 (w / 65536 % 256) ++ hexChars 2 (w / 16777216 % 256)⟩

def md5HexDigest (d : Hash4) : String :=
  toHexLE32 d.a ++ toHexLE32 d.b ++ toHexLE32 d.c ++ toHexLE32 d.d

/-- `hashlib.md5(s.encode()).hexdigest()`. -/
def md5Hex (s : String) : String := md5HexDigest (md5Bytes (strBytes s))

/-! ## Key derivation (`generate_license_key`, lines 30–33) -/

/-- `generate_license_key`: deterministic license key from MAC address and
customer name — `sha256(f"{mac}:{customer}".encode()).hexdigest()[:16]`. -/
def generate_license_key (mac_address customer_name : String) : String :=
  (sha256Hex (mac_address ++ ":" ++ customer_name)).take 16

/-! ### Python string primitives

The method uses `str.strip()`, `str.split(':')` and `str.replace(' ', '_')`;
they are modelled directly on character lists with Python's semantics. -/

/-- Python's ASCII whitespace for `str.strip()` (space, `\t`, `\n`, `\r`,
vertical tab, form feed). -/
def pyIsSpace (c : Char) : Bool :=
  c == ' ' || c == '\t' || c == '\n' || c == '\r' || c.toNat == 11 || c.toNat == 12

/-- `s.strip()`. -/
def pyStrip (s : String) : String :=
  ⟨((s.data.dropWhile pyIsSpace).reverse.dropWhile pyIsSpace).reverse⟩

/-- `s.split(sep)` for a one-character separator: every occurrence of `sep`
cuts, so the result always has one more part than there are separators
(`"".split(':') == ['']`). -/
def splitChar (sep : Char) : List Char → List (List Char)
  | [] => [[]]
  | c :: t =>
      if c == sep then [] :: splitChar sep t
      else
        match splitChar sep t with
        | h :: t2 => (c :: h) :: t2
        | [] => [[c]]

def pySplit (s : String) (sep : Char) : List String :=
  (splitChar sep s.data).map fun l => ⟨l⟩

/-- `s.replace(a, b)` for one-character `a` and `b`. -/
def pyReplaceChar (a b : Char) (s : String) : String :=
  ⟨s.data.map fun c => if c == a then b else c⟩

/-- Line 197: the MAC-address validation
`not mac_address or len(mac_address.split(':')) != 6`, phrased as the
acceptance test (`true` when the input passes). -/
def macFormatOk (s : String) : Bool :=
  !(s == "") && ((pySplit s ':').length == 6)

/-! ## JSON values and Python `dict` semantics

`json.load`/`json.loads` produce Python values; we model them with a `Json`
tree.  Objects are ordered key/value lists, matching Python's
insertion-ordered dicts (`json` round-trips preserve that order). -/

inductive Json where
  | null
  | bool (b : Bool)
  | num (n : Int)
  | str (s : String)
  | arr (elems : List Json)
  | obj (entries : List (String × Json))
  deriving Inhabited, Repr

/-- Python dict key membership, `k in d`. -/
def dictContains (kvs : List (String × Json)) (k : String) : Bool :=
  kvs.any (·.1 == k)

/-- Python dict lookup `d[k]` (first binding; parsed dicts have unique keys). -/
def dictGet (kvs : List (String × Json)) (k : String) : Option Json :=
  (kvs.find? (·.1 == k)).map (·.2)

/-- Python dict assignment `d[k] = v`: replace in place when the key exists,
otherwise append at the end. -/
def dictInsert (kvs : List (String × Json)) (k : String) (v : Json) :
    List (String × Json) :=
  if dictContains kvs k then
    kvs.map fun p => if p.1 == k then (k, v) else p
  else kvs ++ [(k, v)]

/-- Substring test on character lists (Python's `needle in haystack` for
strings). -/
def containsSub (needle : List Char) : List Char → Bool
  | [] => needle.isEmpty
  | c :: t => needle.isPrefixOf (c :: t) || containsSub needle t

/-- Python's `needle in value` on a JSON value: key membership for dicts,
element equality for lists, substring for strings, `TypeError` (`none`)
otherwise. -/
def pyContainsStr (needle : String) (j : Json) : Option Bool :=
  match j with
  | .obj kvs => some (dictContains kvs needle)
  | .arr xs => some (xs.any fun x => match x with | .str s => s == needle | _ => false)
  | .str s => some (containsSub needle.data s.data)
  | _ => none

/-- Python's `value[k]` with a string key: dict lookup (`none` models both
`KeyError` and `TypeError` on non-dicts). -/
def pyGetItem (j : Json) (k : String) : Option Json :=
  match j with
  | .obj kvs => dictGet kvs k
  | _ => none

/-- Python's `value[k] = v` with a string key (`none` models `TypeError` on
non-dicts). -/
def pySetItem (j : Json) (k : String) (v : Json) : Option Json :=
  match j with
  | .obj kvs => some (.obj (dictInsert kvs k v))
  | _ => none

def asStr (j : Json) : Option String :=
  match j with
  | .str s => some s
  | _ => none

/-! ## Expiry parsing (`datetime.datetime.strptime(expiry_date, "%Y-%m-%d")`)

CPython's `_strptime` matches the regex `%Y ↦ \d\d\d\d`,
`%m ↦ 1[0-2]|0[1-9]|[1-9]`, `%d ↦ 3[01]|[12]\d|0[1-9]|[1-9]| [1-9]`,
requires the whole string to be consumed, and then `datetime` validates the
calendar (year ≥ 1, day within the month, Gregorian leap years). -/

def digitVal (c : Char) : Nat := c.toNat - 48

/-- `%Y`: exactly four digits. -/
def parseY : List Char → Option (Nat × List Char)
  | c1 :: c2 :: c3 :: c4 :: rest =>
      if c1.isDigit && c2.isDigit && c3.isDigit && c4.isDigit then
        some (digitVal c1 * 1000 + digitVal c2 * 100 + digitVal c3 * 10 + digitVal c4, rest)
      else none
  | _ => none

/-- `%m`: `1[0-2]|0[1-9]|[1-9]`, alternatives in regex preference order. -/
def parseM : List Char → Option (Nat × List Char)
  | [] => none
  | c :: rest =>
      if c == '1' then
        match rest with
        | c2 :: rest2 =>
            if c2 == '0' || c2 == '1' || c2 == '2' then some (10 + digitVal c2, rest2)
            else some (1, rest)
        | [] => some (1, [])
      else if c == '0' then
        match rest with
        | c2 :: rest2 => if c2.isDigit && c2 != '0' then some (digitVal c2, rest2) else none
        | [] => none
      else if c.isDigit && c != '0' then some (digitVal c, rest)
      else none

/-- `%d`: `3[01]|[12]\d|0[1-9]|[1-9]| [1-9]`, alternatives in regex
preference order. -/
def parseD : List Char → Option (Nat × List Char)
  | [] => none
  | c :: rest =>
      if c == '3' then
        match rest with
        | c2 :: rest2 =>
            if c2 == '0' || c2 == '1' then some (30 + digitVal c2, rest2)
            else some (3, rest)
        | [] => some (3, [])
      else if c == '1' || c == '2' then
        match rest with
        | c2 :: rest2 =>
            if c2.isDigit then some (digitVal c * 10 + digitVal c2, rest2)
            else some (digitVal c, rest)
        | [] => some (digitVal c, [])
      else if c == '0' || c == ' ' then
        match rest with
        | c2 :: rest2 => if c2.isDigit && c2 != '0' then some (digitVal c2, rest2) else none
        | [] => none
      else if c.isDigit && c != '0' then some (digitVal c, rest)
      else none

def isLeapYear (y : Nat) : Bool := y % 4 == 0 && (y % 100 != 0 || y % 400 == 0)

def daysInMonth (y m : Nat) : Nat :=
  if m == 2 then (if isLeapYear y then 29 else 28)
  else if m == 4 || m == 6 || m == 9 || m == 11 then 30
  else 31

/-- `datetime.datetime.strptime(s, "%Y-%m-%d")`: `some (y, m, d)` on success,
`none` when a `ValueError` is raised. -/
def parseDate (s : String) : Option (Nat × Nat × Nat) :=
  match parseY s.data with
  | some (y, '-' :: r1) =>
      match parseM r1 with
      | some (m, '-' :: r2) =>
          match parseD r2 with
          | some (d, []) =>
              if 1 ≤ y && d ≤ daysInMonth y m then some (y, m, d) else none
          | _ => none
      | _ => none
  | _ => none

/-! ## License records and the store (`license_data`, lines 230–237) -/

structure LicenseRecord where
  mac_address : String
  machine_id : String
  customer_name : String
  expiry_date : String
  license_key : String
  issue_date : String
  deriving Repr, DecidableEq

def recordToJson (r : LicenseRecord) : Json :=
  .obj [("mac_address", .str r.mac_address),
        ("machine_id", .str r.machine_id),
        ("customer_name", .str r.customer_name),
        ("expiry_date", .str r.expiry_date),
        ("license_key", .str r.license_key),
        ("issue_date", .str r.issue_date)]

def recordOfJson (j : Json) : Option LicenseRecord :=
  match j with
  | .obj kvs => do
      let mac ← dictGet kvs "mac_address" >>= asStr
      let mid ← dictGet kvs "machine_id" >>= asStr
      let cust ← dictGet kvs "customer_name" >>= asStr
      let exp ← dictGet kvs "expiry_date" >>= asStr
      let key ← dictGet kvs "license_key" >>= asStr
      let iss ← dictGet kvs "issue_date" >>= asStr
      pure ⟨mac, mid, cust, exp, key, iss⟩
  | _ => none

/-- A license store: the mapping from license key to record (§3 of the
design), in dict insertion order. -/
abbrev Store := List (String × LicenseRecord)

def storeToJson (s : Store) : Json :=
  .obj (s.map fun p => (p.1, recordToJson p.2))

def storeOfJson (j : Json) : Option Store :=
  match j with
  | .obj kvs => kvs.mapM fun p => (recordOfJson p.2).map fun r => (p.1, r)
  | _ => none

/-! ## The `generate_license` flow (lines 190–319)

The method runs single-threaded over the file system, the Fernet cipher and
the clock.  We embed it as a pure function over an `Env` describing the
outcome of each of those external calls: the cipher and the platform path
functions are function-valued fields, each file write is a success flag, and
the prior file contents are a `ReadOutcome`.  GUI-only statements
(`messagebox`, status bar, detail pane) are reflected only in the result
constructor. -/

/-- What reading `output_path` yields:`absent` for `os.path.exists` false,
`readFail` when `open`/`json.load` raises, `doc` for a parsed document. -/
inductive ReadOutcome where
  | absent
  | readFail
  | doc (j : Json)
  deriving Inhabited, Repr

/-- The log lines `generate_license` can emit (via `log_message`). -/
inductive LogEvent where
  | warnDecrypt
  | warnLoad
  | savedPrimary (path : String)
  | errorSave
  | savedFallback (path : String)
  | savedSummary (path : String)
  | warnSummary
  | savedSummaryFallback (path : String)
  deriving Repr, DecidableEq

/-- Outcomes of the external calls `generate_license` makes. -/
structure Env where
  /-- `json.loads(fernet.decrypt(ct.encode()))`; `none` when either raises. -/
  dec : String → Option Json
  /-- `fernet.encrypt(json.dumps(v).encode()).decode()`. -/
  enc : Json → String
  /-- `os.path.join`. -/
  joinPath : String → String → String
  /-- `os.path.dirname`. -/
  dirname : String → String
  /-- `os.path.normpath`. -/
  normPath : String → String
  /-- contents found at the (normalized) output path. -/
  prior : ReadOutcome
  /-- `ensure_directory_exists` succeeds. -/
  mkdirOk : Bool
  /-- the `json.dump` to `output_path` succeeds. -/
  primaryWriteOk : Bool
  /-- the `json.dump` to the fallback path succeeds. -/
  fallbackWriteOk : Bool
  /-- the summary-file write at the output directory succeeds. -/
  summaryWriteOk : Bool
  /-- the summary-file write at the fallback location succeeds. -/
  summaryFallbackOk : Bool
  /-- `os.getcwd()`. -/
  cwd : String
  /-- `datetime.datetime.now().isoformat()` at record creation (line 236). -/
  issueIso : String
  /-- `datetime.datetime.now().isoformat()` at envelope creation (line 263). -/
  updatedIso : String
  /-- `datetime.datetime.now().strftime("%Y-%m-%d")` in the summary file. -/
  nowDay : String

/-- Observable effects of one `generate_license` run, in program order. -/
structure Trace where
  logs : List LogEvent
  /-- successful writes of the store document: (path, document). -/
  storeWrites : List (String × Json)
  /-- paths where a store write was attempted (successful or not). -/
  storeAttempts : List String
  /-- successful writes of the customer summary file: (path, lines). -/
  summaryWrites : List (String × List String)
  /-- paths where a summary write was attempted. -/
  summaryAttempts : List String
  deriving Repr

/-- Data shown on success (license-key field, details pane, return). -/
structure SuccessInfo where
  licenseKey : String
  record : LicenseRecord
  /-- the merged `licenses` dict that was encrypted and persisted. -/
  merged : Json
  /-- the `output_data` envelope written to disk. -/
  outputDoc : Json
  /-- the final value of `output_path` (fallback path if the primary write
  failed). -/
  outputPath : String
  summaryPath : String
  deriving Repr

inductive GenResult where
  /-- an input-validation `messagebox.showerror` followed by `return`. -/
  | inputError (field : String)
  /-- `ensure_directory_exists` failed (line 226): error box and `return`. -/
  | dirError
  /-- an exception escaped to the outer handler (line 316). -/
  | opError
  | ok (info : SuccessInfo)
  deriving Repr

structure GenOutput where
  result : GenResult
  trace : Trace
  deriving Repr

/-- Lines 239–254: load and decode the prior store, returning the base
`licenses` value and the warnings logged. -/
def loadPrior (env : Env) : Json × List LogEvent :=
  match env.prior with
  | .absent => (.obj [], [])
  | .readFail => (.obj [], [.warnLoad])
  | .doc j =>
      match pyContainsStr "encrypted_licenses" j with
      | none => (.obj [], [.warnLoad])
      | some true =>
          match (pyGetItem j "encrypted_licenses" >>= asStr) >>= env.dec with
          | some pt => (pt, [])
          | none => (.obj [], [.warnDecrypt])
      | some false => (j, [])

/-- Lines 283–286 / 293–296: the four lines of the customer summary file. -/
def summaryLines (key customer expiry nowDay : String) : List String :=
  ["LICENSE KEY: " ++ key,
   "Customer: " ++ customer,
   "Expiry Date: " ++ expiry,
   "Issue Date: " ++ nowDay]

/-- Lines 260–264: the persisted envelope (`output_data`). -/
def mkEnvelope (ciphertext updatedAt : String) : Json :=
  .obj [("encrypted_licenses", .str ciphertext),
        ("format_version", .str "1.0"),
        ("updated_at", .str updatedAt)]

/-- Lines 278–297: write the customer summary file (with one unguarded
retry at the current working directory — an exception there escapes to the
outer handler) and assemble the final result.  `finalPath` and `tr` are the
output path and trace after the store write. -/
def summaryStage (env : Env) (key : String) (record : LicenseRecord)
    (merged outputDoc : Json) (customer expiry finalPath : String)
    (tr : Trace) : GenOutput :=
  let fname := pyReplaceChar ' ' '_' customer ++ "_license.txt"
  let sPath := env.joinPath (env.dirname finalPath) fname
  let sFall := env.joinPath env.cwd fname
  let lines := summaryLines key customer expiry env.nowDay
  if env.summaryWriteOk then
    ⟨.ok ⟨key, record, merged, outputDoc, finalPath, sPath⟩,
     ⟨tr.logs ++ [.savedSummary sPath], tr.storeWrites,
      tr.storeAttempts, [(sPath, lines)], [sPath]⟩⟩
  else if env.summaryFallbackOk then
    ⟨.ok ⟨key, record, merged, outputDoc, finalPath, sFall⟩,
     ⟨tr.logs ++ [.warnSummary, .savedSummaryFallback sFall],
      tr.storeWrites, tr.storeAttempts, [(sFall, lines)],
      [sPath, sFall]⟩⟩
  else
    ⟨.opError,
     ⟨tr.logs ++ [.warnSummary], tr.storeWrites, tr.storeAttempts,
      [], [sPath, sFall]⟩⟩

/-- `LicenseGeneratorApp.generate_license` (lines 190–319). -/
def generateLicense (env : Env)
    (macInput customerInput expiryInput outPathInput : String) : GenOutput :=
  let noTrace : Trace := ⟨[], [], [], [], []⟩
  let mac := pyStrip macInput
  if !(macFormatOk mac) then
    ⟨.inputError "mac", noTrace⟩
  else
    let customer := pyStrip customerInput
    if customer == "" then ⟨.inputError "customer", noTrace⟩
    else
      let expiry := pyStrip expiryInput
      match parseDate expiry with
      | none => ⟨.inputError "expiry", noTrace⟩
      | some _ =>
        let expiryDT := expiry ++ "T23:59:59"
        let outPath0 := pyStrip outPathInput
        if outPath0 == "" then ⟨.inputError "path", noTrace⟩
        else
          let outPath := env.normPath outPath0
          if env.dirname outPath != "" && !env.mkdirOk then ⟨.dirError, noTrace⟩
          else
            let key := generate_license_key mac customer
            let record : LicenseRecord :=
              ⟨mac, md5Hex mac, customer, expiryDT, key, env.issueIso⟩
            let loaded := loadPrior env
            match pySetItem loaded.1 key (recordToJson record) with
            | none => ⟨.opError, ⟨loaded.2, [], [], [], []⟩⟩
            | some merged =>
              let outputDoc := mkEnvelope (env.enc merged) env.updatedIso
              let fallbackPath := env.joinPath env.cwd "licenses.json"
              if env.primaryWriteOk then
                summaryStage env key record merged outputDoc customer expiry
                  outPath
                  ⟨loaded.2 ++ [.savedPrimary outPath], [(outPath, outputDoc)],
                   [outPath], [], []⟩
              else if env.fallbackWriteOk then
                summaryStage env key record merged outputDoc customer expiry
                  fallbackPath
                  ⟨loaded.2 ++ [.errorSave, .savedFallback fallbackPath],
                   [(fallbackPath, outputDoc)], [outPath, fallbackPath], [], []⟩
              else
                ⟨.opError,
                 ⟨loaded.2 ++ [.errorSave], [], [outPath, fallbackPath], [], []⟩⟩

/-! ## Store codec at the record level (for the round-trip law)

`encodeStore` is the composition the program performs on lines 256–264
(serialize the dict, encrypt, wrap in the envelope); `decodeStore` is the
composition of lines 245–252 (envelope detection and decryption) with
reading the dict back as typed records. -/

def encodeStore (enc : Json → String) (s : Store) (updatedAt : String) : Json :=
  mkEnvelope (enc (storeToJson s)) updatedAt

def decodeStore (dec : String → Option Json) (j : Json) : Option Store :=
  match pyContainsStr "encrypted_licenses" j with
  | some true => ((pyGetItem j "encrypted_licenses" >>= asStr) >>= dec) >>= storeOfJson
  | some false => storeOfJson j
  | none => none

/-! ## Helper lemmas -/

theorem hexChars_length (k : Nat) : ∀ v, (hexChars k v).length = k := by
  induction k with
  | zero => intro v; rfl
  | succ n ih => intro v; simp [hexChars, ih]

theorem toHex8_length (w : Nat) : (toHex8 w).length = 8 := by
  show (hexChars 8 w).length = 8
  exact hexChars_length 8 w

theorem hexDigest_length (d : Hash8) : (hexDigest d).length = 64 := by
  simp [hexDigest, String.length_append, toHex8_length]

theorem sha256Hex_length (s : String) : (sha256Hex s).length = 64 :=
  hexDigest_length _

theorem string_take_length (s : String) (n : Nat) :
    (s.take n).length = min n s.length := by
  rw [String.length, String.data_take]
  exact List.length_take n s.data

theorem summaryStage_storeWrites (env : Env) (key : String)
    (record : LicenseRecord) (merged outputDoc : Json)
    (customer expiry finalPath : String) (tr : Trace) :
    (summaryStage env key record merged outputDoc customer expiry finalPath
        tr).trace.storeWrites = tr.storeWrites := by
  unfold summaryStage
  repeat' split
  all_goals rfl

theorem find_map_insert (k : String) (v : Json) :
    ∀ l : List (String × Json), dictContains l k = true →
      (l.map fun p => if p.1 == k then (k, v) else p).find? (·.1 == k) = some (k, v)
  | [], h => by simp [dictContains] at h
  | p :: t, h => by
      have hmap : (p :: t).map (fun p => if p.1 == k then (k, v) else p)
          = (if p.1 == k then (k, v) else p) ::
            t.map (fun p => if p.1 == k then (k, v) else p) := rfl
      rw [hmap]
      by_cases hp : p.1 = k
      · rw [if_pos (by simpa using hp)]
        exact List.find?_cons_of_pos _ (by simp)
      · rw [if_neg (by simpa using hp)]
        rw [List.find?_cons_of_neg _ (by simpa using hp)]
        apply find_map_insert k v t
        simp only [dictContains, List.any_cons, Bool.or_eq_true] at h
        rcases h with h1 | h2
        · exact absurd (by simpa using h1) hp
        · exact h2

theorem dictGet_dictInsert_self (kvs : List (String × Json)) (k : String) (v : Json)
    (h : dictContains kvs k = true) :
    dictGet (dictInsert kvs k v) k = some v := by
  unfold dictGet dictInsert
  rw [if_pos h, find_map_insert k v kvs h]
  rfl

theorem recordOfJson_recordToJson (r : LicenseRecord) :
    recordOfJson (recordToJson r) = some r := rfl

theorem storeOfJson_storeToJson (s : Store) :
    storeOfJson (storeToJson s) = some s := by
  induction s with
  | nil => rfl
  | cons p t ih =>
      simp only [storeToJson, storeOfJson, List.map_cons, List.mapM_cons] at ih ⊢
      rw [recordOfJson_recordToJson]
      simp only [Option.map_some, Option.bind_some, Option.pure_def] at ih ⊢
      cases hm : (t.map fun p => (p.1, recordToJson p.2)).mapM
          fun p => (recordOfJson p.2).map fun r => (p.1, r) with
      | none => rw [hm] at ih; simp at ih
      | some l => rw [hm] at ih; simp at ih; simp [hm, ih]

/-! ## Claims -/

/-- **C1.** For every machine identifier `m` and customer name `c`, the
deterministic license key equals the first 16 hexadecimal characters of
`hex(SHA-256(m ++ ":" ++ c))`; in particular the output always has length
16, and running the derivation twice on the same `(m, c)` yields identical
output. -/
theorem license_key_derivation_spec (m c : String) :
    generate_license_key m c = (sha256Hex (m ++ ":" ++ c)).take 16 ∧
    (generate_license_key m c).length = 16 ∧
    generate_license_key m c = generate_license_key m c := by
  refine ⟨rfl, ?_, rfl⟩
  show ((sha256Hex (m ++ ":" ++ c)).take 16).length = 16
  rw [string_take_length, sha256Hex_length]
  decide

/-- **C8.** Machine-identifier validation accepts exactly those non-empty
strings that split on `':'` into exactly 6 components, and does not check
that the components are hexadecimal digits: `"zz:zz:zz:zz:zz:zz"` passes. -/
theorem mac_validation_spec :
    (∀ s : String, macFormatOk s = true ↔ (s ≠ "" ∧ (pySplit s ':').length = 6)) ∧
    macFormatOk "zz:zz:zz:zz:zz:zz" = true := by
  refine ⟨fun s => ?_, by decide⟩
  simp [macFormatOk]

/-- Witness for `mac_validation_spec`: the all-`z` identifier is accepted
even though it has no hexadecimal content. -/
theorem mac_validation_witness : macFormatOk "zz:zz:zz:zz:zz:zz" = true :=
  mac_validation_spec.2

/-- **C6.** For a store already containing key `k`, inserting a record under
`k` replaces that entry with the new record and leaves the number of entries
unchanged; for a key not present, the size grows by exactly one. -/
theorem store_insert_spec (kvs : List (String × Json)) (k : String) (v : Json) :
    (dictContains kvs k = true →
        (dictInsert kvs k v).length = kvs.length ∧
        dictGet (dictInsert kvs k v) k = some v) ∧
    (dictContains kvs k = false →
        (dictInsert kvs k v).length = kvs.length + 1) := by
  constructor
  · intro h
    exact ⟨by simp [dictInsert, h], dictGet_dictInsert_self kvs k v h⟩
  · intro h
    simp [dictInsert, h]

/-- Witness for `store_insert_spec`: concrete overwrite (size 1 stays 1, the
value is replaced) and concrete fresh insert (size 1 grows to 2). -/
theorem store_insert_witness :
    ((dictInsert [("k", Json.null)] "k" (Json.bool true)).length = 1 ∧
      dictGet (dictInsert [("k", Json.null)] "k" (Json.bool true)) "k" =
        some (Json.bool true)) ∧
    (dictInsert [("k", Json.null)] "j" (Json.bool true)).length = 2 :=
  ⟨(store_insert_spec [("k", Json.null)] "k" (Json.bool true)).1 rfl,
   (store_insert_spec [("k", Json.null)] "j" (Json.bool true)).2 rfl⟩

/-- **C2.** Decoding the document produced by encoding a store `S`
(serialize, encrypt, wrap in the envelope) recovers exactly `S`, for any
cipher in which decryption inverts encryption on this plaintext. -/
theorem decode_encode_roundtrip (enc : Json → String) (dec : String → Option Json)
    (s : Store) (t : String)
    (h : dec (enc (storeToJson s)) = some (storeToJson s)) :
    decodeStore dec (encodeStore enc s t) = some s := by
  simp [decodeStore, encodeStore, mkEnvelope, pyContainsStr, dictContains,
    pyGetItem, dictGet, asStr, h, storeOfJson_storeToJson]

theorem dictContains_of_dictGet :
    ∀ (kvs : List (String × Json)) (k : String) (v : Json),
      dictGet kvs k = some v → dictContains kvs k = true
  | [], k, v, h => by simp [dictGet] at h
  | p :: t, k, v, h => by
      by_cases hp : (p.1 == k) = true
      · exact List.any_eq_true.2 ⟨p, List.mem_cons_self p t, hp⟩
      · have ht : dictGet t k = some v := by
          unfold dictGet at h ⊢
          rwa [List.find?_cons_of_neg _ (by simpa using hp)] at h
        have hrec := dictContains_of_dictGet t k v ht
        unfold dictContains at hrec ⊢
        simp [List.any_cons, hrec]

/-- Witness for `decode_encode_roundtrip` at a one-record store with a
concrete (trivially consistent) cipher. -/
theorem decode_encode_roundtrip_witness :
    decodeStore
      (fun _ => some (storeToJson [("8124d4f40ba71015",
        ⟨"aa:bb:cc:dd:ee:ff", "6424e2dce251d76b3113dfa5a4b7d2d2", "Acme Corp",
         "2025-01-01T23:59:59", "8124d4f40ba71015", "2025-01-01T00:00:00"⟩)]))
      (encodeStore (fun _ => "ciphertext")
        [("8124d4f40ba71015",
          ⟨"aa:bb:cc:dd:ee:ff", "6424e2dce251d76b3113dfa5a4b7d2d2", "Acme Corp",
           "2025-01-01T23:59:59", "8124d4f40ba71015", "2025-01-01T00:00:00"⟩)] "now") =
    some [("8124d4f40ba71015",
      ⟨"aa:bb:cc:dd:ee:ff", "6424e2dce251d76b3113dfa5a4b7d2d2", "Acme Corp",
       "2025-01-01T23:59:59", "8124d4f40ba71015", "2025-01-01T00:00:00"⟩)] :=
  decode_encode_roundtrip _ _ _ "now" rfl

/-- **C7.** Decoding detects the persisted format by the presence of the
envelope marker field `"encrypted_licenses"`: a document carrying the marker
is decrypted, while a plain non-enveloped document is accepted as-is as the
license mapping, whatever cipher is configured. -/
theorem decode_format_detection (env : Env) (kvs : List (String × Json))
    (hdoc : env.prior = .doc (.obj kvs)) :
    (dictContains kvs "encrypted_licenses" = false →
        loadPrior env = (.obj kvs, [])) ∧
    (∀ ct pt, dictGet kvs "encrypted_licenses" = some (.str ct) →
        env.dec ct = some pt → loadPrior env = (pt, [])) := by
  constructor
  · intro h
    simp [loadPrior, hdoc, pyContainsStr, h]
  · intro ct pt hg hd
    have hc : dictContains kvs "encrypted_licenses" = true :=
      dictContains_of_dictGet kvs _ _ hg
    simp [loadPrior, hdoc, pyContainsStr, hc, pyGetItem, hg, asStr, hd]

/-- Witness for `decode_format_detection`: a plain one-entry document is
taken as the mapping itself, and an enveloped document is decrypted. -/
theorem decode_format_detection_witness :
    loadPrior ⟨fun _ => some (.obj []), fun _ => "", fun a _ => a, fun _ => "",
        id, .doc (.obj [("x", .null)]), true, true, true, true, true,
        "", "", "", ""⟩ = (.obj [("x", .null)], []) ∧
    loadPrior ⟨fun _ => some (.obj []), fun _ => "", fun a _ => a, fun _ => "",
        id, .doc (.obj [("encrypted_licenses", .str "ct")]), true, true, true,
        true, true, "", "", "", ""⟩ = (.obj [], []) :=
  ⟨(decode_format_detection _ [("x", .null)] rfl).1 rfl,
   (decode_format_detection _ [("encrypted_licenses", .str "ct")] rfl).2
     "ct" (.obj []) rfl rfl⟩

/-- **C3.** When the prior store file's envelope ciphertext fails to decrypt,
generation does not raise to the caller: it logs a warning and proceeds with
the merge starting from an empty store (the merged store holds exactly the
new record). -/
theorem decrypt_failure_fail_open (env : Env) (mI cI eI pI : String) (j : Json)
    (hprior : env.prior = .doc j)
    (hmark : pyContainsStr "encrypted_licenses" j = some true)
    (hdec : ((pyGetItem j "encrypted_licenses").bind asStr).bind env.dec = none)
    (hmac : macFormatOk (pyStrip mI) = true)
    (hcust : (pyStrip cI == "") = false)
    (hdate : parseDate (pyStrip eI) = some d)
    (hpath : (pyStrip pI == "") = false)
    (hmk : env.mkdirOk = true)
    (hw : env.primaryWriteOk = true)
    (hs : env.summaryWriteOk = true) :
    ∃ info, (generateLicense env mI cI eI pI).result = .ok info ∧
      info.merged = Json.obj [(info.licenseKey, recordToJson info.record)] ∧
      LogEvent.warnDecrypt ∈ (generateLicense env mI cI eI pI).trace.logs := by
  have hload : loadPrior env = (Json.obj [], [LogEvent.warnDecrypt]) := by
    simp [loadPrior, hprior, hmark, hdec]
  simp [generateLicense, summaryStage, hmac, hcust, hdate, hpath, hmk, hw, hs,
    hload, pySetItem, dictInsert, dictContains]

/-- Witness for `decrypt_failure_fail_open`: an enveloped prior store whose
ciphertext no longer decrypts; generation still succeeds, the merged store
holds only the new record, and the warning is logged. -/
theorem decrypt_failure_fail_open_witness :
    ∃ info,
      (generateLicense
          ⟨fun _ => none, fun _ => "ct", fun a b => a ++ "/" ++ b, fun _ => "d",
           id, .doc (.obj [("encrypted_licenses", .str "junk")]), true, true,
           true, true, true, "cwd", "I", "U", "D"⟩
          "aa:bb:cc:dd:ee:ff" "Acme Corp" "2025-01-01" "licenses.json").result =
        .ok info ∧
      info.merged = Json.obj [(info.licenseKey, recordToJson info.record)] ∧
      LogEvent.warnDecrypt ∈
        (generateLicense
            ⟨fun _ => none, fun _ => "ct", fun a b => a ++ "/" ++ b, fun _ => "d",
             id, .doc (.obj [("encrypted_licenses", .str "junk")]), true, true,
             true, true, true, "cwd", "I", "U", "D"⟩
            "aa:bb:cc:dd:ee:ff" "Acme Corp" "2025-01-01" "licenses.json").trace.logs :=
  decrypt_failure_fail_open
    ⟨fun _ => none, fun _ => "ct", fun a b => a ++ "/" ++ b, fun _ => "d",
     id, .doc (.obj [("encrypted_licenses", .str "junk")]), true, true,
     true, true, true, "cwd", "I", "U", "D"⟩
    "aa:bb:cc:dd:ee:ff" "Acme Corp" "2025-01-01" "licenses.json"
    (.obj [("encrypted_licenses", .str "junk")]) rfl rfl rfl rfl rfl
    (show parseDate (pyStrip "2025-01-01") = some (2025, 1, 1) from rfl)
    rfl rfl rfl rfl

/-- **C5.** An expiry input that parses as a calendar date in `YYYY-MM-DD`
form is stored with the end-of-day marker `"T23:59:59"` appended; an input
that does not parse is rejected with an input error and produces no record
and no writes. -/
theorem expiry_validation_spec (env : Env) (mI cI eI pI : String)
    (bkvs : List (String × Json))
    (hmac : macFormatOk (pyStrip mI) = true)
    (hcust : (pyStrip cI == "") = false)
    (hpath : (pyStrip pI == "") = false)
    (hmk : env.mkdirOk = true)
    (hbase : (loadPrior env).1 = Json.obj bkvs)
    (hw : env.primaryWriteOk = true)
    (hs : env.summaryWriteOk = true) :
    (∀ d, parseDate (pyStrip eI) = some d →
        ∃ info, (generateLicense env mI cI eI pI).result = .ok info ∧
          info.record.expiry_date = pyStrip eI ++ "T23:59:59") ∧
    (parseDate (pyStrip eI) = none →
        (generateLicense env mI cI eI pI).result = .inputError "expiry" ∧
        (generateLicense env mI cI eI pI).trace.storeWrites = [] ∧
        (generateLicense env mI cI eI pI).trace.summaryWrites = []) := by
  constructor
  · intro d hd
    simp [generateLicense, summaryStage, hmac, hcust, hd, hpath, hmk, hw, hs,
      hbase, pySetItem]
  · intro hd
    simp [generateLicense, hmac, hcust, hd, hpath, hmk]

/-- Witness for `expiry_validation_spec`: `"2025-01-01"` is stored as
`"2025-01-01T23:59:59"`, and `"01-01-2025"` is rejected. -/
theorem expiry_validation_witness :
    (∃ info,
        (generateLicense
            ⟨fun _ => none, fun _ => "ct", fun a b => a ++ "/" ++ b, fun _ => "d",
             id, .absent, true, true, true, true, true, "cwd", "I", "U", "D"⟩
            "aa:bb:cc:dd:ee:ff" "Acme Corp" "2025-01-01" "licenses.json").result =
          .ok info ∧
        info.record.expiry_date = pyStrip "2025-01-01" ++ "T23:59:59") ∧
    ((generateLicense
        ⟨fun _ => none, fun _ => "ct", fun a b => a ++ "/" ++ b, fun _ => "d",
         id, .absent, true, true, true, true, true, "cwd", "I", "U", "D"⟩
        "aa:bb:cc:dd:ee:ff" "Acme Corp" "01-01-2025" "licenses.json").result =
      .inputError "expiry") :=
  ⟨(expiry_validation_spec
      ⟨fun _ => none, fun _ => "ct", fun a b => a ++ "/" ++ b, fun _ => "d",
       id, .absent, true, true, true, true, true, "cwd", "I", "U", "D"⟩
      "aa:bb:cc:dd:ee:ff" "Acme Corp" "2025-01-01"
      "licenses.json" [] rfl rfl rfl rfl rfl rfl rfl).1 (2025, 1, 1) rfl,
   ((expiry_validation_spec
      ⟨fun _ => none, fun _ => "ct", fun a b => a ++ "/" ++ b, fun _ => "d",
       id, .absent, true, true, true, true, true, "cwd", "I", "U", "D"⟩
      "aa:bb:cc:dd:ee:ff" "Acme Corp" "01-01-2025"
      "licenses.json" [] rfl rfl rfl rfl rfl rfl rfl).2 rfl).1⟩

/-- **C4.** If the primary write of the merged store fails, the operation
retries exactly once, at the fixed fallback `os.path.join(cwd,
"licenses.json")`; on fallback success the reported output path is the
fallback path, and if the fallback write also fails the failure propagates
(the operation errors out) rather than being swallowed. -/
theorem persist_fallback_spec (env : Env) (mI cI eI pI : String)
    (bkvs : List (String × Json)) (d : Nat × Nat × Nat)
    (hmac : macFormatOk (pyStrip mI) = true)
    (hcust : (pyStrip cI == "") = false)
    (hdate : parseDate (pyStrip eI) = some d)
    (hpath : (pyStrip pI == "") = false)
    (hmk : env.mkdirOk = true)
    (hbase : (loadPrior env).1 = Json.obj bkvs)
    (hfail : env.primaryWriteOk = false)
    (hs : env.summaryWriteOk = true) :
    (env.fallbackWriteOk = true →
        ∃ info, (generateLicense env mI cI eI pI).result = .ok info ∧
          info.outputPath = env.joinPath env.cwd "licenses.json" ∧
          (generateLicense env mI cI eI pI).trace.storeAttempts =
            [env.normPath (pyStrip pI), env.joinPath env.cwd "licenses.json"] ∧
          (generateLicense env mI cI eI pI).trace.storeWrites =
            [(env.joinPath env.cwd "licenses.json", info.outputDoc)]) ∧
    (env.fallbackWriteOk = false →
        (generateLicense env mI cI eI pI).result = .opError ∧
        (generateLicense env mI cI eI pI).trace.storeWrites = [] ∧
        (generateLicense env mI cI eI pI).trace.storeAttempts =
          [env.normPath (pyStrip pI), env.joinPath env.cwd "licenses.json"]) := by
  constructor
  · intro hfb
    simp [generateLicense, summaryStage, hmac, hcust, hdate, hpath, hmk, hbase,
      hfail, hfb, hs, pySetItem]
  · intro hfb
    simp [generateLicense, summaryStage, hmac, hcust, hdate, hpath, hmk, hbase,
      hfail, hfb, pySetItem]

/-- Witness for `persist_fallback_spec`: with a failing primary write, the
run succeeds at `cwd/licenses.json` when the fallback write works, and
errors out when it does not. -/
theorem persist_fallback_witness :
    (∃ info,
        (generateLicense
            ⟨fun _ => none, fun _ => "ct", fun a b => a ++ "/" ++ b, fun _ => "d",
             id, .absent, true, false, true, true, true, "cwd", "I", "U", "D"⟩
            "aa:bb:cc:dd:ee:ff" "Acme Corp" "2025-01-01" "elsewhere.json").result =
          .ok info ∧
        info.outputPath = "cwd/licenses.json" ∧
        (generateLicense
            ⟨fun _ => none, fun _ => "ct", fun a b => a ++ "/" ++ b, fun _ => "d",
             id, .absent, true, false, true, true, true, "cwd", "I", "U", "D"⟩
            "aa:bb:cc:dd:ee:ff" "Acme Corp" "2025-01-01" "elsewhere.json").trace.storeAttempts =
          ["elsewhere.json", "cwd/licenses.json"] ∧
        (generateLicense
            ⟨fun _ => none, fun _ => "ct", fun a b => a ++ "/" ++ b, fun _ => "d",
             id, .absent, true, false, true, true, true, "cwd", "I", "U", "D"⟩
            "aa:bb:cc:dd:ee:ff" "Acme Corp" "2025-01-01" "elsewhere.json").trace.storeWrites =
          [("cwd/licenses.json", info.outputDoc)]) ∧
    (generateLicense
        ⟨fun _ => none, fun _ => "ct", fun a b => a ++ "/" ++ b, fun _ => "d",
         id, .absent, true, false, false, true, true, "cwd", "I", "U", "D"⟩
        "aa:bb:cc:dd:ee:ff" "Acme Corp" "2025-01-01" "elsewhere.json").result =
      .opError :=
  ⟨(persist_fallback_spec
      ⟨fun _ => none, fun _ => "ct", fun a b => a ++ "/" ++ b, fun _ => "d",
       id, .absent, true, false, true, true, true, "cwd", "I", "U", "D"⟩
      "aa:bb:cc:dd:ee:ff" "Acme Corp" "2025-01-01"
      "elsewhere.json" [] (2025, 1, 1) rfl rfl rfl rfl rfl rfl rfl rfl).1 rfl,
   ((persist_fallback_spec
      ⟨fun _ => none, fun _ => "ct", fun a b => a ++ "/" ++ b, fun _ => "d",
       id, .absent, true, false, false, true, true, "cwd", "I", "U", "D"⟩
      "aa:bb:cc:dd:ee:ff" "Acme Corp" "2025-01-01"
      "elsewhere.json" [] (2025, 1, 1) rfl rfl rfl rfl rfl rfl rfl rfl).2 rfl).1⟩

/-- **C9, counterexample.** The claim says a summary-file write failure is
never fatal to the generation operation.  But the retry write at the
fallback location (line 292) is not guarded by a `try`: with both summary
writes failing — and nothing else — the exception escapes to the outer
handler and the operation fails, even though the store itself was already
persisted (one successful store write). -/
theorem summary_failure_counterexample :
    (generateLicense
        ⟨fun _ => none, fun _ => "ct", fun a b => a ++ "/" ++ b, fun _ => "d",
         id, .absent, true, true, true, false, false, "cwd", "I", "U", "D"⟩
        "aa:bb:cc:dd:ee:ff" "Acme Corp" "2025-01-01" "licenses.json").result =
      .opError ∧
    (generateLicense
        ⟨fun _ => none, fun _ => "ct", fun a b => a ++ "/" ++ b, fun _ => "d",
         id, .absent, true, true, true, false, false, "cwd", "I", "U", "D"⟩
        "aa:bb:cc:dd:ee:ff" "Acme Corp" "2025-01-01" "licenses.json").trace.storeWrites.length = 1 :=
  ⟨rfl, rfl⟩

/-- **C9 (amended).** After the store is persisted, a plain-text customer
summary of exactly four lines (`LICENSE KEY:`, `Customer:`, `Expiry Date:`,
`Issue Date:`), with filename derived from the customer name by replacing
spaces with underscores, is written next to the store.  Failure of that
write is logged and retried once at the current working directory; only if
the retry also fails does the operation fail — the store write itself is
not undone. -/
theorem summary_file_spec (env : Env) (mI cI eI pI : String)
    (bkvs : List (String × Json)) (d : Nat × Nat × Nat)
    (hmac : macFormatOk (pyStrip mI) = true)
    (hcust : (pyStrip cI == "") = false)
    (hdate : parseDate (pyStrip eI) = some d)
    (hpath : (pyStrip pI == "") = false)
    (hmk : env.mkdirOk = true)
    (hbase : (loadPrior env).1 = Json.obj bkvs)
    (hw : env.primaryWriteOk = true) :
    (env.summaryWriteOk = true →
        ∃ info, (generateLicense env mI cI eI pI).result = .ok info ∧
          (generateLicense env mI cI eI pI).trace.summaryWrites =
            [(env.joinPath (env.dirname (env.normPath (pyStrip pI)))
                (pyReplaceChar ' ' '_' (pyStrip cI) ++ "_license.txt"),
              ["LICENSE KEY: " ++ info.licenseKey,
               "Customer: " ++ pyStrip cI,
               "Expiry Date: " ++ pyStrip eI,
               "Issue Date: " ++ env.nowDay])]) ∧
    (env.summaryWriteOk = false → env.summaryFallbackOk = true →
        ∃ info, (generateLicense env mI cI eI pI).result = .ok info ∧
          LogEvent.warnSummary ∈ (generateLicense env mI cI eI pI).trace.logs ∧
          (generateLicense env mI cI eI pI).trace.summaryWrites =
            [(env.joinPath env.cwd
                (pyReplaceChar ' ' '_' (pyStrip cI) ++ "_license.txt"),
              ["LICENSE KEY: " ++ info.licenseKey,
               "Customer: " ++ pyStrip cI,
               "Expiry Date: " ++ pyStrip eI,
               "Issue Date: " ++ env.nowDay])]) ∧
    (env.summaryWriteOk = false → env.summaryFallbackOk = false →
        (generateLicense env mI cI eI pI).result = .opError ∧
        (generateLicense env mI cI eI pI).trace.storeWrites.length = 1) := by
  refine ⟨fun hs => ?_, fun hs hf => ?_, fun hs hf => ?_⟩
  · simp [generateLicense, summaryStage, hmac, hcust, hdate, hpath, hmk, hbase,
      hw, hs, pySetItem, summaryLines]
  · simp [generateLicense, summaryStage, hmac, hcust, hdate, hpath, hmk, hbase,
      hw, hs, hf, pySetItem, summaryLines]
  · simp [generateLicense, summaryStage, hmac, hcust, hdate, hpath, hmk, hbase,
      hw, hs, hf, pySetItem, summaryLines]

/-- Witness for `summary_file_spec`: the three summary-write outcomes at
concrete inputs. -/
theorem summary_file_witness :
    (∃ info,
        (generateLicense
            ⟨fun _ => none, fun _ => "ct", fun a b => a ++ "/" ++ b, fun _ => "d",
             id, .absent, true, true, true, true, true, "cwd", "I", "U", "D"⟩
            "aa:bb:cc:dd:ee:ff" "Acme Corp" "2025-01-01" "licenses.json").result =
          .ok info ∧
        (generateLicense
            ⟨fun _ => none, fun _ => "ct", fun a b => a ++ "/" ++ b, fun _ => "d",
             id, .absent, true, true, true, true, true, "cwd", "I", "U", "D"⟩
            "aa:bb:cc:dd:ee:ff" "Acme Corp" "2025-01-01" "licenses.json").trace.summaryWrites =
          [("d/Acme_Corp_license.txt",
            ["LICENSE KEY: " ++ info.licenseKey,
             "Customer: " ++ pyStrip "Acme Corp",
             "Expiry Date: " ++ pyStrip "2025-01-01",
             "Issue Date: " ++ "D"])]) ∧
    ((generateLicense
        ⟨fun _ => none, fun _ => "ct", fun a b => a ++ "/" ++ b, fun _ => "d",
         id, .absent, true, true, true, false, false, "cwd", "I", "U", "D"⟩
        "aa:bb:cc:dd:ee:ff" "Acme Corp" "2025-01-01" "licenses.json").result =
      .opError) := by
  constructor
  · have h := (summary_file_spec
      ⟨fun _ => none, fun _ => "ct", fun a b => a ++ "/" ++ b, fun _ => "d",
       id, .absent, true, true, true, true, true, "cwd", "I", "U", "D"⟩
      "aa:bb:cc:dd:ee:ff" "Acme Corp" "2025-01-01" "licenses.json" []
      (2025, 1, 1) rfl rfl rfl rfl rfl rfl rfl).1 rfl
    exact h
  · exact ((summary_file_spec
      ⟨fun _ => none, fun _ => "ct", fun a b => a ++ "/" ++ b, fun _ => "d",
       id, .absent, true, true, true, false, false, "cwd", "I", "U", "D"⟩
      "aa:bb:cc:dd:ee:ff" "Acme Corp" "2025-01-01" "licenses.json" []
      (2025, 1, 1) rfl rfl rfl rfl rfl rfl rfl).2.2 rfl rfl).1

/-- **C10.** Every store document the operation successfully writes —
primary or fallback location, whatever the prior store on disk looked like —
is the encrypted envelope object with exactly the fields
`encrypted_licenses`, `format_version = "1.0"` and `updated_at`; no code
path writes a plain store. -/
theorem persisted_format_invariant (env : Env) (mI cI eI pI : String)
    (pd : String × Json)
    (hmem : pd ∈ (generateLicense env mI cI eI pI).trace.storeWrites) :
    ∃ ct, pd.2 = Json.obj [("encrypted_licenses", Json.str ct),
      ("format_version", Json.str "1.0"),
      ("updated_at", Json.str env.updatedIso)] := by
  simp only [generateLicense] at hmem
  repeat' split at hmem
  all_goals
    first
      | simp at hmem
      | (rw [summaryStage_storeWrites, List.mem_singleton] at hmem
         exact hmem ▸ ⟨_, rfl⟩)

set_option maxRecDepth 400000 in
/-- Witness for `persisted_format_invariant`: the document written by a
concrete successful run. -/
theorem persisted_format_witness :
    ∃ ct,
      (("licenses.json",
        Json.obj [("encrypted_licenses", Json.str "ct"),
          ("format_version", Json.str "1.0"),
          ("updated_at", Json.str "U")]) : String × Json).2 =
      Json.obj [("encrypted_licenses", Json.str ct),
        ("format_version", Json.str "1.0"),
        ("updated_at", Json.str "U")] :=
  persisted_format_invariant
    ⟨fun _ => none, fun _ => "ct", fun a b => a ++ "/" ++ b, fun _ => "d",
     id, .absent, true, true, true, true, true, "cwd", "I", "U", "D"⟩
    "aa:bb:cc:dd:ee:ff" "Acme Corp" "2025-01-01" "licenses.json"
    ("licenses.json",
      Json.obj [("encrypted_licenses", Json.str "ct"),
        ("format_version", Json.str "1.0"),
        ("updated_at", Json.str "U")])
    (List.Mem.head _)

end License
